import Mathlib

/-
Shallow embedding of the per-guild music queue and playback sequencing logic
of src/main.py (a Discord music bot).

Modelling notes, per source construct:

- The process-wide dict music_queues (line 93) is modelled per guild: the field
  queue : Option (List Song) is none when the guild id has no entry in the dict
  and some q when the entry holds deque q.  All dict operations in the source
  (membership test, creation, append, popleft, clear, del) are keyed by the one
  guild id of the command, so guilds are independent.
- guild.voice_client is modelled by voice : Bool (none vs a connected client);
  the active audio source (voice_client.source, a YTDLSource which is a
  PCMVolumeTransformer) is current : Option Playing.
- Volumes are exact multiples of 1/100 in the source (the YTDLSource default
  0.5 of line 96, and volume/100 of line 427 with an int 0..100), so volume is
  carried as an integer percent: 50 stands for 0.5.
- Network I/O is abstracted by two oracles: extract models
  ytdl.extract_info at enqueue time (line 203) returning metadata or raising
  (none); resolve models the success or failure of YTDLSource.from_url at play
  time (line 344).  Both are parameters so theorems quantify over outcomes.
- discord.py voice semantics the source relies on: VoiceClient.stop() halts the
  stream and the after callback registered by voice_client.play (line 375) still
  fires (the skip command, lines 288-290, advances purely through that
  callback, so the source depends on this); VoiceClient.play raises
  ClientException when a stream is already active, and play_next_song's outer
  try (line 380) swallows that exception, so a duplicate callback pops a song
  without changing the active stream.
- discord.opus.is_loaded() (line 371) is modelled as true (opus loaded).
- Observable actions (replies, network calls, voice operations) are recorded in
  an Effect trace so that claims about acknowledgement order, resolution
  timing, callback firing and disconnect counts can be stated.
-/

namespace MusicBot

/- A queued request as built at line 216 of src/main.py: url, title, duration,
requester. -/
structure Song where
  url : String
  title : String
  duration : Nat
  requester : String
deriving DecidableEq

/- The active audio source: the song being streamed and the volume of its
PCMVolumeTransformer, in integer percent (50 = the 0.5 default of line 96). -/
structure Playing where
  song : Song
  volume : Int
deriving DecidableEq

/- One guild's view of the process state: its music_queues entry (none = key
absent), whether a voice client is connected, and the active source. -/
structure GuildState where
  queue : Option (List Song)
  voice : Bool
  current : Option Playing
deriving DecidableEq

/- Observable actions, in program order. -/
inductive Effect where
  | msg (text : String)
  | extractInfo (q : String)
  | connect
  | resolveStream (url : String)
  | playStart (url : String)
  | voiceStop
  | afterFired
  | disconnect
deriving DecidableEq

/- Metadata returned by ytdl.extract_info at enqueue time (lines 203-213):
title, duration, and the webpage url stored in the queue entry. -/
structure Extracted where
  title : String
  duration : Nat
  page_url : String
deriving DecidableEq

/- Result of the queue-consuming loop: remaining queue, active source,
trace. -/
structure SeqResult where
  queue : List Song
  current : Option Playing
  effects : List Effect
deriving DecidableEq

/- Result of a command handler: new guild state and trace. -/
structure CmdResult where
  state : GuildState
  effects : List Effect
deriving DecidableEq

/- Python str.startswith over the underlying character lists. -/
def charsStartWith : List Char → List Char → Bool
  | [], _ => true
  | _ :: _, [] => false
  | p :: ps, c :: cs => p == c && charsStartWith ps cs

def pyStartsWith (s pre : String) : Bool :=
  charsStartWith pre.data s.data

/- Lines 196-201: a non-URL query becomes a ytsearch query. -/
def searchQuery (query : String) : String :=
  if pyStartsWith query "http://" || pyStartsWith query "https://" ||
      pyStartsWith query "www." then
    query
  else
    "ytsearch:" ++ query

/- The body of play_next_song (lines 337-375) acting on the queue contents: pop
the head (line 338), resolve it via YTDLSource.from_url (line 344, recorded as
resolveStream); on failure recurse on the rest if non-empty (lines 351-353); on
success call voice_client.play (line 375) — which starts the stream at the
default volume 50 when none is active, and raises (swallowed by the outer try
at line 380) when a stream is already active, leaving the popped song dropped.
Structural recursion on the queue: each attempt pops one entry. -/
def playNextFrom (resolve : String → Bool) (cur : Option Playing) :
    List Song → SeqResult
  | [] => ⟨[], cur, []⟩
  | s :: rest =>
    if resolve s.url then
      match cur with
      | none => ⟨rest, some ⟨s, 50⟩,
          [Effect.resolveStream s.url, Effect.playStart s.url]⟩
      | some c => ⟨rest, some c, [Effect.resolveStream s.url]⟩
    else if rest.isEmpty then
      ⟨[], cur, [Effect.resolveStream s.url]⟩
    else
      let r := playNextFrom resolve cur rest
      ⟨r.queue, r.current, Effect.resolveStream s.url :: r.effects⟩

/- play_next_song (lines 323-353): return early when the guild has no queue
entry or an empty one (line 328) or no voice client (line 333); otherwise run
the pop-resolve-play loop. -/
def play_next_song (resolve : String → Bool) (st : GuildState) : CmdResult :=
  match st.queue with
  | none => ⟨st, []⟩
  | some [] => ⟨st, []⟩
  | some (s :: rest) =>
    if st.voice then
      let r := playNextFrom resolve st.current (s :: rest)
      ⟨{ st with queue := some r.queue, current := r.current }, r.effects⟩
    else
      ⟨st, []⟩

/- The part of the play command after the acknowledgement (lines 193-248):
extract_info on the search query; on exception (none) reply with the error and
touch nothing else (lines 244-248); on success append the song (line 216),
connect if needed (lines 225-233), and start playback when nothing is playing
(lines 236-242). -/
def playEnqueue (extract : String → Option Extracted) (resolve : String → Bool)
    (user sq : String) (st1 : GuildState) (wasConnected : Bool) : CmdResult :=
  match extract sq with
  | none => ⟨st1, [Effect.msg "cannot process"]⟩
  | some d =>
    let song : Song := ⟨d.page_url, d.title, d.duration, user⟩
    let st2 : GuildState := { st1 with queue := some (st1.queue.getD [] ++ [song]) }
    let connEff : List Effect := if wasConnected then [] else [Effect.connect]
    let st3 : GuildState := { st2 with voice := true }
    if st3.current.isSome then
      ⟨st3, connEff ++ [Effect.msg "added to queue"]⟩
    else
      let r := play_next_song resolve st3
      ⟨r.state, connEff ++ r.effects ++ [Effect.msg "now playing"]⟩

/- The play command (lines 170-257): reject when the user is not in a voice
channel (line 177); ensure the music_queues entry exists (lines 187-188); send
the searching acknowledgement (line 191); then extract and enqueue. -/
def playCmd (extract : String → Option Extracted) (resolve : String → Bool)
    (userInVoice : Bool) (user query : String) (st : GuildState) : CmdResult :=
  if userInVoice then
    let st1 : GuildState := { st with queue := some (st.queue.getD []) }
    let sq := searchQuery query
    let r := playEnqueue extract resolve user sq st1 st.voice
    ⟨r.state, Effect.msg "searching" :: Effect.extractInfo sq :: r.effects⟩
  else
    ⟨st, [Effect.msg "not in voice"]⟩

/- The stop command (lines 259-280): with no voice client, reply and change
nothing (line 276); otherwise clear the queue entry if present (lines 268-269),
call voice_client.stop() (line 272) — whose after callback fires when a stream
was active and re-enters play_next_song with the now-empty queue — and
disconnect (line 273). -/
def stopCmd (resolve : String → Bool) (st : GuildState) : CmdResult :=
  if st.voice then
    let cleared : GuildState :=
      { st with queue := st.queue.map (fun _ => ([] : List Song)) }
    match st.current with
    | some _ =>
      let r := play_next_song resolve { cleared with current := none }
      ⟨{ r.state with voice := false },
        Effect.voiceStop :: Effect.afterFired ::
          (r.effects ++ [Effect.disconnect, Effect.msg "stopped"])⟩
    | none =>
      ⟨{ cleared with voice := false },
        [Effect.voiceStop, Effect.disconnect, Effect.msg "stopped"]⟩
  else
    ⟨st, [Effect.msg "not connected"]⟩

/- The skip command (lines 282-296): when a stream is active, call
voice_client.stop() (line 289); its after callback runs play_next_song and so
advances; otherwise reply that nothing is playing and change nothing. -/
def skipCmd (resolve : String → Bool) (st : GuildState) : CmdResult :=
  if st.voice && st.current.isSome then
    let r := play_next_song resolve { st with current := none }
    ⟨r.state,
      Effect.voiceStop :: Effect.afterFired ::
        (r.effects ++ [Effect.msg "skipped"])⟩
  else
    ⟨st, [Effect.msg "nothing playing"]⟩

/- The volume command (lines 417-433): reject values outside 0..100 (line 421);
with an active source set its volume to v percent (line 427); otherwise reply
that no music is playing and change nothing (line 430). -/
def volumeCmd (v : Int) (st : GuildState) : CmdResult :=
  if v < 0 ∨ v > 100 then
    ⟨st, [Effect.msg "invalid volume"]⟩
  else
    match st.current, st.voice with
    | some c, true =>
      ⟨{ st with current := some ⟨c.song, v⟩ }, [Effect.msg "volume set"]⟩
    | _, _ => ⟨st, [Effect.msg "no music playing"]⟩

/- on_guild_remove (lines 146-152): delete the guild's music_queues entry if
present; nothing else is touched. -/
def on_guild_remove (st : GuildState) : CmdResult :=
  ⟨{ st with queue := none }, []⟩

/- A natural end of the stream: the player thread finishes, the source is gone,
and the after callback (lines 356-368) schedules play_next_song. -/
def natural_completion (resolve : String → Bool) (st : GuildState) : CmdResult :=
  let r := play_next_song resolve { st with current := none }
  ⟨r.state, Effect.afterFired :: r.effects⟩

/- A duplicate firing of the after callback for an already-handled stream: the
callback body runs again, without the stream having ended, so the active source
is whatever is playing now. -/
def spurious_completion (resolve : String → Bool) (st : GuildState) : CmdResult :=
  let r := play_next_song resolve st
  ⟨r.state, Effect.afterFired :: r.effects⟩

def isPlayStart : Effect → Bool
  | Effect.playStart _ => true
  | _ => false

/- The subtrace of stream starts, i.e. the playback order. -/
def playStarts (es : List Effect) : List Effect :=
  es.filter isPlayStart

def isResolveAttempt : Effect → Bool
  | Effect.resolveStream _ => true
  | _ => false

/- How many play-time resolution attempts a trace contains. -/
def resolveAttempts (es : List Effect) : Nat :=
  (es.filter isResolveAttempt).length

/- Three enqueues into a fresh guild followed by two natural completions, with
the full trace concatenated. -/
def enqueue3trace (extract : String → Option Extracted) (resolve : String → Bool)
    (user a b c : String) : List Effect :=
  let r1 := playCmd extract resolve true user a ⟨none, false, none⟩
  let r2 := playCmd extract resolve true user b r1.state
  let r3 := playCmd extract resolve true user c r2.state
  let r4 := natural_completion resolve r3.state
  let r5 := natural_completion resolve r4.state
  r1.effects ++ r2.effects ++ r3.effects ++ r4.effects ++ r5.effects

/- Concrete oracles and songs used to instantiate theorems. -/
def extractAll : String → Option Extracted :=
  fun q => some ⟨"t", 7, "r:" ++ q⟩

def extractNone : String → Option Extracted :=
  fun _ => none

def resolveAll : String → Bool :=
  fun _ => true

def songA : Song := ⟨"ua", "A", 3, "u"⟩

def songB : Song := ⟨"ub", "B", 4, "u"⟩

/- Resolves every url except songA's. -/
def resolveNotA : String → Bool :=
  fun u => !(u == "ua")

end MusicBot

namespace MusicBot

/- Helper: every resolution attempt of the queue-consuming loop first pops one
queue entry, so the number of attempts is at most the queue length. -/
theorem resolveAttempts_playNextFrom_le (resolve : String → Bool)
    (cur : Option Playing) (q : List Song) :
    resolveAttempts (playNextFrom resolve cur q).effects ≤ q.length := by
  induction q with
  | nil => cases cur <;> simp [playNextFrom, resolveAttempts]
  | cons s rest ih =>
    cases cur <;> cases hr : resolve s.url <;> cases he : rest.isEmpty <;>
      simp_all [playNextFrom, resolveAttempts, isResolveAttempt, List.filter]

/- Helper: every stream the queue-consuming loop starts begins at the default
volume 50 (the 0.5 of YTDLSource). -/
theorem playNextFrom_current_default (resolve : String → Bool) (q : List Song) :
    (playNextFrom resolve none q).current = none ∨
      ∃ s : Song, (playNextFrom resolve none q).current = some ⟨s, 50⟩ := by
  induction q with
  | nil => exact Or.inl (by simp [playNextFrom])
  | cons s rest ih =>
    cases hr : resolve s.url with
    | false =>
      cases he : rest.isEmpty with
      | false =>
        have h1 : (playNextFrom resolve none (s :: rest)).current =
            (playNextFrom resolve none rest).current := by
          simp [playNextFrom, hr, he]
        rw [h1]
        exact ih
      | true => exact Or.inl (by simp [playNextFrom, hr, he])
    | true => exact Or.inr ⟨s, by simp [playNextFrom, hr]⟩


/-- C1: the claim says the play command acknowledges the user and returns
without performing any network resolution of the query.  False: after the
acknowledgement the handler runs ytdl.extract_info on the query (line 203 of
src/main.py) before appending to the queue, a network resolution performed at
enqueue time.  Concretely, enqueueing the query abc into a fresh guild emits an
extractInfo network call inside the enqueue operation itself. -/
theorem c1_counterexample_extraction_at_enqueue :
    Effect.extractInfo "ytsearch:abc" ∈
      (playCmd extractAll resolveAll true "u" "abc" ⟨none, false, none⟩).effects := by
  decide

/-- C1 amended: the play command acknowledges the user first (the searching
reply precedes every network call), but then performs a network extraction of
the query during the enqueue operation itself, before the request is appended;
in addition, the playable stream is resolved a second time when the track is
about to play (from_url at the head of play_next_song). -/
theorem c1_amended_eager_extraction (extract : String → Option Extracted)
    (resolve : String → Bool) (user query : String) (st : GuildState)
    (s : Song) (rest : List Song) (hs : resolve s.url = true) :
    (∃ tail, (playCmd extract resolve true user query st).effects =
      Effect.msg "searching" :: Effect.extractInfo (searchQuery query) :: tail) ∧
    playNextFrom resolve none (s :: rest) =
      ⟨rest, some ⟨s, 50⟩,
        [Effect.resolveStream s.url, Effect.playStart s.url]⟩ := by
  constructor
  · exact ⟨_, rfl⟩
  · simp [playNextFrom, hs]

/-- C1 amended, instantiated at a concrete enqueue and a concrete head
track. -/
theorem c1_amended_witness :
    (∃ tail, (playCmd extractAll resolveAll true "u" "q" ⟨none, false, none⟩).effects =
      Effect.msg "searching" :: Effect.extractInfo (searchQuery "q") :: tail) ∧
    playNextFrom resolveAll none [songA] =
      ⟨[], some ⟨songA, 50⟩,
        [Effect.resolveStream songA.url, Effect.playStart songA.url]⟩ :=
  c1_amended_eager_extraction extractAll resolveAll "u" "q" ⟨none, false, none⟩
    songA [] rfl

/-- C2: the claim says the pending completion notification of a stream halted
by stop is suppressed.  False: the after callback registered at line 375 of
src/main.py fires on VoiceClient.stop() as well (the skip command relies on
exactly that), so a stop-triggered halt is handed to the same completion
handler as a natural finish.  Concretely, stopping while a song plays with one
song pending fires the callback. -/
theorem c2_counterexample_callback_fires :
    Effect.afterFired ∈
      (stopCmd resolveAll ⟨some [songB], true, some ⟨songA, 50⟩⟩).effects := by
  decide

/-- C2 amended: the completion callback is not suppressed on stop — it fires
and runs the same advance routine as a natural finish — but because stop clears
the pending queue before halting the stream, the advance finds nothing to play:
after a stop no stream is started, no track is current, and the pending queue
is empty. -/
theorem c2_amended_no_advance_after_stop (resolve : String → Bool)
    (q : Option (List Song)) (cur : Option Playing) :
    (∀ u, Effect.playStart u ∉ (stopCmd resolve ⟨q, true, cur⟩).effects) ∧
    (stopCmd resolve ⟨q, true, cur⟩).state.current = none ∧
    (stopCmd resolve ⟨q, true, cur⟩).state.queue.getD [] = [] := by
  refine ⟨fun u => ?_, ?_, ?_⟩ <;>
    cases cur <;> cases q <;> simp [stopCmd, play_next_song]

/-- C3: the claim says a duplicate completion notification for one play is a
no-op because a per-guild generation counter invalidates it.  False: the
source has no generation counter; the duplicate callback runs play_next_song
again, which pops the next pending request, so the state changes.  Concretely,
with one song playing and one pending, the duplicate notification empties the
pending queue. -/
theorem c3_counterexample_duplicate_not_noop :
    (spurious_completion resolveAll ⟨some [songB], true, some ⟨songA, 50⟩⟩).state ≠
      ⟨some [songB], true, some ⟨songA, 50⟩⟩ := by
  decide

/-- C3 amended: there is no generation counter.  When the completion
notification fires a second time for one play while a stream is active, the
current track indeed advances at most once — the duplicate leaves it unchanged,
because the play call it reaches fails against the already-active stream — but
the duplicate is not a no-op: it pops the next pending request, resolves it,
and drops it. -/
theorem c3_amended_duplicate_pops_and_drops (resolve : String → Bool)
    (c : Playing) (s : Song) (rest : List Song) (hs : resolve s.url = true) :
    spurious_completion resolve ⟨some (s :: rest), true, some c⟩ =
      ⟨⟨some rest, true, some c⟩,
        [Effect.afterFired, Effect.resolveStream s.url]⟩ := by
  simp [spurious_completion, play_next_song, playNextFrom, hs]

/-- C3 amended, instantiated: a duplicate notification while songA plays pops
and drops the pending songB. -/
theorem c3_amended_witness :
    spurious_completion resolveAll ⟨some [songB], true, some ⟨songA, 50⟩⟩ =
      ⟨⟨some [], true, some ⟨songA, 50⟩⟩,
        [Effect.afterFired, Effect.resolveStream songB.url]⟩ :=
  c3_amended_duplicate_pops_and_drops resolveAll ⟨songA, 50⟩ songB [] rfl

/-- C4: a resolution failure does not stall the queue.  The number of
resolution attempts the sequencer makes is bounded by the queue length (each
attempt first pops one entry, so no entry is ever retried), and enqueue A
(fails to resolve) then B (resolves) ends with B playing and A silently
dropped. -/
theorem c4_failure_skipover_bounded (resolve : String → Bool)
    (cur : Option Playing) (q : List Song) (a b : Song)
    (ha : resolve a.url = false) (hb : resolve b.url = true) :
    resolveAttempts (playNextFrom resolve cur q).effects ≤ q.length ∧
    playNextFrom resolve none [a, b] =
      ⟨[], some ⟨b, 50⟩,
        [Effect.resolveStream a.url, Effect.resolveStream b.url,
          Effect.playStart b.url]⟩ := by
  refine ⟨resolveAttempts_playNextFrom_le resolve cur q, ?_⟩
  simp [playNextFrom, ha, hb]

/-- C4, instantiated: with a queue holding songA (unresolvable) then songB,
both attempts happen (two, bounded by the length two), songB ends up playing
and songA is dropped. -/
theorem c4_witness :
    resolveAttempts (playNextFrom resolveNotA none [songA, songB]).effects ≤ 2 ∧
    playNextFrom resolveNotA none [songA, songB] =
      ⟨[], some ⟨songB, 50⟩,
        [Effect.resolveStream songA.url, Effect.resolveStream songB.url,
          Effect.playStart songB.url]⟩ :=
  c4_failure_skipover_bounded resolveNotA none [songA, songB] songA songB rfl rfl


/-- C5: the pending queue is FIFO.  Enqueueing three tracks in order into a
fresh guild, with no intervening skip or stop, and letting each stream finish
naturally, makes the streams start in exactly insertion order: the play command
appends at the tail (line 216 of src/main.py) and play_next_song pops from the
head (line 338). -/
theorem c5_fifo_playback_order (extract : String → Option Extracted)
    (resolve : String → Bool) (user a b c : String) (da db dc : Extracted)
    (hea : extract (searchQuery a) = some da)
    (heb : extract (searchQuery b) = some db)
    (hec : extract (searchQuery c) = some dc)
    (hra : resolve da.page_url = true) (hrb : resolve db.page_url = true)
    (hrc : resolve dc.page_url = true) :
    playStarts (enqueue3trace extract resolve user a b c) =
      [Effect.playStart da.page_url, Effect.playStart db.page_url,
        Effect.playStart dc.page_url] := by
  simp [enqueue3trace, playCmd, playEnqueue, play_next_song, playNextFrom,
    natural_completion, hea, heb, hec, hra, hrb, hrc, playStarts, isPlayStart,
    List.filter]

/-- C5, instantiated: three concrete queries through always-succeeding oracles
start in insertion order. -/
theorem c5_fifo_witness :
    playStarts (enqueue3trace extractAll resolveAll "u" "a" "b" "c") =
      [Effect.playStart "r:ytsearch:a", Effect.playStart "r:ytsearch:b",
        Effect.playStart "r:ytsearch:c"] :=
  c5_fifo_playback_order extractAll resolveAll "u" "a" "b" "c"
    ⟨"t", 7, "r:ytsearch:a"⟩ ⟨"t", 7, "r:ytsearch:b"⟩ ⟨"t", 7, "r:ytsearch:c"⟩
    rfl rfl rfl rfl rfl rfl

/-- C6: with a voice connection, in any phase, the stop command empties the
guild's pending queue, leaves no current track, and emits exactly one
disconnect; without a voice connection it replies not connected and changes no
state. -/
theorem c6_stop_clears_and_disconnects_once (resolve : String → Bool)
    (q q2 : Option (List Song)) (cur cur2 : Option Playing) :
    ((stopCmd resolve ⟨q, true, cur⟩).state.queue.getD [] = [] ∧
     (stopCmd resolve ⟨q, true, cur⟩).state.current = none ∧
     (stopCmd resolve ⟨q, true, cur⟩).effects.count Effect.disconnect = 1) ∧
    ((stopCmd resolve ⟨q2, false, cur2⟩).state = ⟨q2, false, cur2⟩ ∧
     Effect.msg "not connected" ∈ (stopCmd resolve ⟨q2, false, cur2⟩).effects) := by
  refine ⟨⟨?_, ?_, ?_⟩, ?_, ?_⟩ <;>
    cases cur <;> cases q <;>
      simp [stopCmd, play_next_song, List.count_cons]

/-- C7: the claim says the volume persists across tracks within the guild and
that setVolume with no active stream updates a stored default.  False on both
counts: every new track starts a fresh YTDLSource whose volume is the constant
0.5 (line 96 of src/main.py), and the volume command with no active source
only replies an error (line 430).  Concretely, setting volume 80 while songA
plays leaves the following songB playing at 50, not 80, and a volume command
with nothing playing changes no state. -/
theorem c7_counterexample_volume_not_persistent :
    (natural_completion resolveAll
        (volumeCmd 80 ⟨some [songB], true, some ⟨songA, 50⟩⟩).state).state.current
      = some ⟨songB, 50⟩ ∧
    ((50 : Int) ≠ 80) ∧
    (volumeCmd 40 ⟨some [], true, none⟩).state = ⟨some [], true, none⟩ := by
  refine ⟨by decide, by decide, by decide⟩

/-- C7 amended: volume is per stream, not per guild.  setVolume(v) with an
active stream sets that stream's volume to v percent immediately; with no
active stream it reports an error and updates nothing (there is no stored
default); and every track the sequencer starts begins at the constant default
50, regardless of any earlier setVolume. -/
theorem c7_amended_per_track_default (v : Int) (hv0 : 0 ≤ v) (hv1 : v ≤ 100)
    (q : Option (List Song)) (c : Playing) (resolve : String → Bool)
    (q2 : List Song) :
    (volumeCmd v ⟨q, true, some c⟩).state.current = some ⟨c.song, v⟩ ∧
    (∀ qq vv, (volumeCmd v ⟨qq, vv, none⟩).state = ⟨qq, vv, none⟩) ∧
    ((playNextFrom resolve none q2).current = none ∨
      ∃ s : Song, (playNextFrom resolve none q2).current = some ⟨s, 50⟩) := by
  refine ⟨?_, ?_, playNextFrom_current_default resolve q2⟩
  · have hv : ¬(v < 0 ∨ v > 100) := by omega
    simp [volumeCmd, hv]
  · intro qq vv
    by_cases hv : v < 0 ∨ v > 100
    · simp [volumeCmd, hv]
    · cases vv <;> simp [volumeCmd, hv]

/-- C7 amended, instantiated at volume 80 with songA active and songB
pending. -/
theorem c7_amended_witness :
    (volumeCmd 80 ⟨some [songB], true, some ⟨songA, 50⟩⟩).state.current =
      some ⟨songA, 80⟩ ∧
    (∀ qq vv, (volumeCmd 80 ⟨qq, vv, none⟩).state = ⟨qq, vv, none⟩) ∧
    ((playNextFrom resolveAll none [songB]).current = none ∨
      ∃ s : Song, (playNextFrom resolveAll none [songB]).current = some ⟨s, 50⟩) :=
  c7_amended_per_track_default 80 (by decide) (by decide) (some [songB])
    ⟨songA, 50⟩ resolveAll [songB]

/-- C8: the claim says a guild-leave acts like an explicit stop (pending
emptied, current cleared, stream stopped, disconnected) followed by removal of
the store entry.  False: on_guild_remove (lines 146-152 of src/main.py) only
deletes the music_queues entry; it neither stops the stream nor disconnects.
Concretely, after a guild-leave while songA plays, the track is still current
and no disconnect was emitted. -/
theorem c8_counterexample_no_stop_on_leave :
    (on_guild_remove ⟨some [songB], true, some ⟨songA, 50⟩⟩).state.current ≠ none ∧
    Effect.disconnect ∉
      (on_guild_remove ⟨some [songB], true, some ⟨songA, 50⟩⟩).effects := by
  refine ⟨by decide, by decide⟩

/-- C8 amended: on a guild-leave event the handler removes the guild's queue
entry from the store (dropping its pending requests with it) and does nothing
else: the current track, the stream and the voice connection are untouched and
no effect is produced. -/
theorem c8_amended_only_entry_removed (st : GuildState) :
    (on_guild_remove st).state.queue = none ∧
    (on_guild_remove st).state.current = st.current ∧
    (on_guild_remove st).state.voice = st.voice ∧
    (on_guild_remove st).effects = [] :=
  ⟨rfl, rfl, rfl, rfl⟩

/-- C9: invalid commands are reported synchronously and change no state: skip
with no voice client, skip with nothing playing, and stop with no voice
client each leave the queue, current track and connection exactly as they
were and only reply an error message. -/
theorem c9_invalid_commands_no_state_change (resolve : String → Bool)
    (q q2 q3 : Option (List Song)) (cur cur3 : Option Playing) (v2 : Bool) :
    ((skipCmd resolve ⟨q, false, cur⟩).state = ⟨q, false, cur⟩ ∧
     Effect.msg "nothing playing" ∈ (skipCmd resolve ⟨q, false, cur⟩).effects) ∧
    ((skipCmd resolve ⟨q2, v2, none⟩).state = ⟨q2, v2, none⟩ ∧
     Effect.msg "nothing playing" ∈ (skipCmd resolve ⟨q2, v2, none⟩).effects) ∧
    ((stopCmd resolve ⟨q3, false, cur3⟩).state = ⟨q3, false, cur3⟩ ∧
     Effect.msg "not connected" ∈ (stopCmd resolve ⟨q3, false, cur3⟩).effects) := by
  refine ⟨⟨?_, ?_⟩, ⟨?_, ?_⟩, ?_, ?_⟩ <;> simp [skipCmd, stopCmd]

/-- C10: an enqueue whose query extraction raises leaves the guild's pending
queue contents unchanged: the append at line 216 of src/main.py runs only
after extract_info has returned, so a failed enqueue changes neither the
pending requests, nor the current track, nor the connection. -/
theorem c10_failed_enqueue_atomic (extract : String → Option Extracted)
    (resolve : String → Bool) (uiv : Bool) (user query : String)
    (st : GuildState) (he : extract (searchQuery query) = none) :
    (playCmd extract resolve uiv user query st).state.queue.getD [] =
      st.queue.getD [] ∧
    (playCmd extract resolve uiv user query st).state.current = st.current ∧
    (playCmd extract resolve uiv user query st).state.voice = st.voice := by
  cases uiv <;> simp [playCmd, playEnqueue, he]

/-- C10, instantiated with an extractor that always raises. -/
theorem c10_witness :
    (playCmd extractNone resolveAll true "u" "q" ⟨some [songA], true, none⟩).state.queue.getD []
      = [songA] ∧
    (playCmd extractNone resolveAll true "u" "q" ⟨some [songA], true, none⟩).state.current
      = none ∧
    (playCmd extractNone resolveAll true "u" "q" ⟨some [songA], true, none⟩).state.voice
      = true :=
  c10_failed_enqueue_atomic extractNone resolveAll true "u" "q"
    ⟨some [songA], true, none⟩ rfl

end MusicBot
